import Mathlib

/-!
Shallow embedding of the quota/subscription bookkeeping layer of the
Telegram bot (config.py, database.py, main.py).  SQL tables become lists
or functions, the ambient clock `datetime.now()` becomes an explicit
`now : Nat` parameter counted in seconds, and `now.date()` becomes
`now / 86400` (day 0 is taken to be a Monday, so `weekday = day % 7`).
Each `async def` of `DatabaseManager` that the claims touch is translated
as a pure state transformer `DB → ... → result × DB`.
-/

namespace TgBot

/-- Association-list lookup: the first binding for a key, mirroring an SQL
select by a unique key (`fetchone` in table order). -/
def alookup {κ α : Type} [DecidableEq κ] (k : κ) : List (κ × α) → Option α
  | [] => none
  | (k2, v) :: rest => if k = k2 then some v else alookup k rest

/-- Update every row holding the key, mirroring `UPDATE ... WHERE key = ?`. -/
def aupdate {κ α : Type} [DecidableEq κ] (k : κ) (f : α → α) (l : List (κ × α)) :
    List (κ × α) :=
  l.map (fun p => if p.1 = k then (p.1, f p.2) else p)

/-- `INSERT OR REPLACE` keyed by a UNIQUE constraint: the conflicting row is
dropped and the fresh row appended. -/
def aupsert {κ α : Type} [DecidableEq κ] (k : κ) (v : α) (l : List (κ × α)) :
    List (κ × α) :=
  (l.filter (fun p => decide (p.1 ≠ k))) ++ [(k, v)]

/-- config.py `BotConfig.FREE_LIMITS`. -/
def FREE_LIMITS : List (String × Nat) :=
  [("free_text_requests", 75),
   ("premium_text_requests", 0),
   ("photo_analysis", 7),
   ("flux_generation", 10),
   ("midjourney_generation", 3),
   ("voice_processing", 0),
   ("document_processing", 0)]

/-- config.py `BotConfig.PREMIUM_LIMITS`. -/
def PREMIUM_LIMITS : List (String × Nat) :=
  [("free_text_requests", 150),
   ("premium_text_requests", 50),
   ("photo_analysis", 25),
   ("flux_generation", 25),
   ("midjourney_generation", 10),
   ("voice_processing", 20),
   ("document_processing", 15)]

/-- config.py `BotConfig.REFERRAL_SETTINGS` (the fields the database layer reads). -/
structure ReferralSettings where
  max_registration_age_hours : Nat
  allow_bonus_for_active_users : Bool
  allow_multiple_referral_bonuses : Bool
  activity_threshold_hours : Nat
deriving Repr, DecidableEq

def REFERRAL_SETTINGS : ReferralSettings :=
  { max_registration_age_hours := 24,
    allow_bonus_for_active_users := false,
    allow_multiple_referral_bonuses := false,
    activity_threshold_hours := 1 }

def secondsPerHour : Nat := 3600

def secondsPerDay : Nat := 86400

/-- The calendar date of a timestamp (`datetime.now().date()`). -/
def dayOf (now : Nat) : Nat := now / secondsPerDay

/-- database.py `get_period_dates`: daily buckets are a single date, weekly
buckets run Monday..Sunday.  Day 0 is a Monday, so `weekday = day % 7`.
`none` is the `ValueError` branch for an unsupported period type. -/
def get_period_dates (period_type : String) (day : Nat) : Option (Nat × Nat) :=
  if period_type = "daily" then
    some (day, day)
  else if period_type = "weekly" then
    let start := day - day % 7
    some (start, start + 6)
  else
    none

/-- A row of the `users` table (the columns the modelled functions read;
username / first_name / last_name / trial_used are never consulted by the
claims' code paths and are omitted). -/
structure User where
  subscription_type : String := "free"
  subscription_expires : Option Nat := none
  referral_code : String
  invited_by : Option Nat := none
  referral_bonus_expires : Option Nat := none
  created_at : Nat
deriving Repr, DecidableEq

/-- A row of `usage_limits` minus its key (user_id, limit_type, period_start). -/
structure UsageRow where
  usage_count : Nat
  period_end : Nat
  period_type : String
  updated_at : Nat
deriving Repr, DecidableEq

/-- A row of the `referrals` table (no UNIQUE constraint on the pair). -/
structure Referral where
  inviter_id : Nat
  invited_id : Nat
  created_at : Nat
  bonus_given : Bool
deriving Repr, DecidableEq

/-- A row of the `payments` table. -/
structure Payment where
  user_id : Nat
  payment_id : String
  amount : Nat
  status : String
  subscription_type : String
  telegram_payment_charge_id : Option String
  refund_reason : Option String := none
  completed_at : Option Nat := none
deriving Repr, DecidableEq

/-- A row of `daily_stats` minus its date key. -/
structure DailyStats where
  new_users : Nat := 0
  text_requests : Nat := 0
  image_analysis : Nat := 0
  image_generation : Nat := 0
  payments_count : Nat := 0
  revenue_stars : Nat := 0
deriving Repr, DecidableEq

/-- The SQLite database.  `users` is keyed by the PRIMARY KEY user_id,
`usage` by the UNIQUE (user_id, limit_type, period_start); `referrals` and
`payments` keep table order (rowid order) because the code selects the
first match. -/
structure DB where
  users : List (Nat × User)
  usage : List ((Nat × String × Nat) × UsageRow)
  referrals : List Referral
  payments : List Payment
  stats : Nat → Option DailyStats

def user_exists (db : DB) (uid : Nat) : Bool :=
  (alookup uid db.users).isSome

/-- Reads one named column of a `daily_stats` row. -/
def statField (s : DailyStats) (name : String) : Nat :=
  if name = "new_users" then s.new_users
  else if name = "text_requests" then s.text_requests
  else if name = "image_analysis" then s.image_analysis
  else if name = "image_generation" then s.image_generation
  else if name = "payments_count" then s.payments_count
  else if name = "revenue_stars" then s.revenue_stars
  else 0

/-- Adds to one named column; an unknown column is the SQL error that
`increment_daily_stat` catches and logs, leaving the row unchanged. -/
def bumpStat (s : DailyStats) (name : String) (v : Nat) : DailyStats :=
  if name = "new_users" then { s with new_users := s.new_users + v }
  else if name = "text_requests" then { s with text_requests := s.text_requests + v }
  else if name = "image_analysis" then { s with image_analysis := s.image_analysis + v }
  else if name = "image_generation" then { s with image_generation := s.image_generation + v }
  else if name = "payments_count" then { s with payments_count := s.payments_count + v }
  else if name = "revenue_stars" then { s with revenue_stars := s.revenue_stars + v }
  else s

/-- database.py `increment_daily_stat`: `INSERT OR IGNORE` today's row, then
add `v` to the named column. -/
def incrementDailyStat (db : DB) (name : String) (v : Nat) (now : Nat) : DB :=
  let today := dayOf now
  { db with stats := fun d =>
      if d = today then some (bumpStat ((db.stats today).getD {}) name v)
      else db.stats d }

/-- The stored value of one stat column for a date (0 for a missing row,
matching the COALESCE reads in the admin queries). -/
def statValue (db : DB) (day : Nat) (name : String) : Nat :=
  match db.stats day with
  | some s => statField s name
  | none => 0

/-- The fresh row `create_user` INSERTs (the uuid suffix of the generated
referral code is abstracted to a deterministic string; no claim reads a
generated code). -/
def newUser (uid : Nat) (invited_by : Option Nat) (now : Nat) : User :=
  { subscription_type := "free",
    subscription_expires := none,
    referral_code := "REF" ++ toString uid,
    invited_by := invited_by,
    referral_bonus_expires := none,
    created_at := now }

/-- The `UPDATE users` CASE statement that grants the inviter one day of
premium (shared verbatim by `create_user` and
`apply_referral_bonus_to_existing_user`; SQL evaluates every SET expression
against the pre-update row). -/
def grantInviterPremium (now : Nat) (v : User) : User :=
  { v with
    subscription_type :=
      if v.subscription_type = "free" then "premium" else v.subscription_type,
    subscription_expires :=
      if v.subscription_type = "free" then some (now + secondsPerDay)
      else
        match v.subscription_expires with
        | none => some (now + secondsPerDay)
        | some e =>
            if e < now + secondsPerDay then some (now + secondsPerDay)
            else some (e + secondsPerDay) }

/-- database.py `create_user`.  An existing user raises IntegrityError on the
first INSERT, so nothing is committed.  Otherwise the user row is inserted;
with an inviter, a referral row is added, the invited user gets a one-day
referral bonus, the inviter gets a day of premium, the referral row is
marked bonus_given, and finally the new_users stat is bumped. -/
def create_user (db : DB) (uid : Nat) (invited_by : Option Nat) (now : Nat) : DB :=
  if user_exists db uid then db
  else
    let db1 : DB := { db with users := db.users ++ [(uid, newUser uid invited_by now)] }
    let db2 : DB :=
      match invited_by with
      | none => db1
      | some inviter =>
        let newRef : Referral :=
          { inviter_id := inviter, invited_id := uid, created_at := now, bonus_given := false }
        let dbr : DB := { db1 with referrals := db1.referrals ++ [newRef] }
        let users2 :=
          aupdate uid (fun v => { v with referral_bonus_expires := some (now + secondsPerDay) }) dbr.users
        let dbb : DB := { dbr with users := users2 }
        let dbp : DB := { dbb with users := aupdate inviter (grantInviterPremium now) dbb.users }
        let refs2 := dbp.referrals.map (fun r =>
          if r.inviter_id = inviter ∧ r.invited_id = uid then { r with bonus_given := true } else r)
        { dbp with referrals := refs2 }
    incrementDailyStat db2 "new_users" 1 now

/-- database.py `apply_referral_bonus_to_existing_user`: referral row inserted
already marked bonus_given, invited user gets the one-day bonus, inviter gets
a day of premium. -/
def apply_referral_bonus_to_existing_user (db : DB) (uid : Nat) (inviter : Nat) (now : Nat) : DB :=
  let newRef : Referral :=
    { inviter_id := inviter, invited_id := uid, created_at := now, bonus_given := true }
  let dbr : DB := { db with referrals := db.referrals ++ [newRef] }
  let users2 :=
    aupdate uid (fun v => { v with referral_bonus_expires := some (now + secondsPerDay) }) dbr.users
  let dbb : DB := { dbr with users := users2 }
  { dbb with users := aupdate inviter (grantInviterPremium now) dbb.users }

/-- The `if not await self.user_exists(user_id): await self.create_user(user_id)`
preamble of `check_limit`, `get_user_status` and `set_subscription`. -/
def ensureUser (db : DB) (uid : Nat) (now : Nat) : DB :=
  if user_exists db uid then db else create_user db uid none now

/-- database.py `reset_subscription`, i.e. `set_subscription(user_id, "free")`
with no days and no transaction: the user row is set to the free tier with
no expiry. -/
def reset_subscription (db : DB) (uid : Nat) (now : Nat) : DB :=
  let db1 := ensureUser db uid now
  let users2 :=
    aupdate uid (fun u => { u with subscription_type := "free", subscription_expires := none }) db1.users
  { db1 with users := users2 }

/-- Doubles every cap, the `for key in limits: limits[key] *= 2` loop. -/
def doubleLimits (l : List (String × Nat)) : List (String × Nat) :=
  l.map (fun p => (p.1, p.2 * 2))

/-- database.py `get_user_limits`.  Python sets `is_premium` and possibly
resets the subscription inside one if-cascade; here the flag and the state
effect of that same cascade are written as two parallel computations. -/
def get_user_limits (db : DB) (uid : Nat) (now : Nat) : List (String × Nat) × DB :=
  match alookup uid db.users with
  | none => (FREE_LIMITS, db)
  | some u =>
    let is_premium : Bool :=
      if u.subscription_type = "premium" then
        match u.subscription_expires with
        | some e => decide (e > now)
        | none => false
      else false
    let db2 : DB :=
      if u.subscription_type = "premium" then
        match u.subscription_expires with
        | some e => if e > now then db else reset_subscription db uid now
        | none => db
      else db
    let has_bonus : Bool :=
      match u.referral_bonus_expires with
      | some b => decide (b > now)
      | none => false
    let limits := if is_premium then PREMIUM_LIMITS else FREE_LIMITS
    let limits2 := if has_bonus && !is_premium then doubleLimits limits else limits
    (limits2, db2)

/-- database.py `get_usage_for_period`: the stored counter for the current
period bucket, 0 when no row exists.  The outer `none` is the ValueError
branch of `get_period_dates`, unreachable from the call sites, which only
pass "daily" or "weekly". -/
def get_usage_for_period (db : DB) (uid : Nat) (lt : String) (period_type : String)
    (now : Nat) : Nat :=
  match get_period_dates period_type (dayOf now) with
  | some se =>
    match alookup (uid, lt, se.1) db.usage with
    | some row => row.usage_count
    | none => 0
  | none => 0

/-- The result dict of `check_limit`.  `remaining` is stored as a Nat because
`max(0, limit - used)` of two non-negative ints is exactly truncated
subtraction. -/
structure CheckResult where
  allowed : Bool
  used : Nat
  limit : Nat
  remaining : Nat
  period_type : String
deriving Repr, DecidableEq

/-- database.py `check_limit`. -/
def check_limit (db : DB) (uid : Nat) (lt : String) (now : Nat) : CheckResult × DB :=
  let db1 := ensureUser db uid now
  let gul := get_user_limits db1 uid now
  let user_limits := gul.1
  let db2 := gul.2
  let period_type : String :=
    if lt = "flux_generation" ∨ lt = "midjourney_generation" then
      if lt = "midjourney_generation" then
        let is_premium : Bool :=
          match alookup uid db2.users with
          | some u => decide (u.subscription_type = "premium")
          | none => false
        if is_premium then "daily" else "weekly"
      else "weekly"
    else "daily"
  let used := get_usage_for_period db2 uid lt period_type now
  let lim := (alookup lt user_limits).getD 0
  ({ allowed := decide (used < lim),
     used := used,
     limit := lim,
     remaining := lim - used,
     period_type := period_type }, db2)

/-- database.py `use_limit`: re-check, then `INSERT OR REPLACE` the counter
row with `COALESCE(prev, 0) + 1`, then the per-category daily stat bump.
The inner `none` branch is the unreachable ValueError path. -/
def use_limit (db : DB) (uid : Nat) (lt : String) (now : Nat) : Bool × DB :=
  let chk := check_limit db uid lt now
  let res := chk.1
  let db1 := chk.2
  if !res.allowed then (false, db1)
  else
    match get_period_dates res.period_type (dayOf now) with
    | none => (false, db1)
    | some se =>
      let prev : Nat :=
        match alookup (uid, lt, se.1) db1.usage with
        | some row => row.usage_count
        | none => 0
      let newRow : UsageRow :=
        { usage_count := prev + 1, period_end := se.2,
          period_type := res.period_type, updated_at := now }
      let db3 : DB := { db1 with usage := aupsert (uid, lt, se.1) newRow db1.usage }
      let db4 : DB :=
        if lt = "free_text_requests" ∨ lt = "premium_text_requests" then
          incrementDailyStat db3 "text_requests" 1 now
        else if lt = "photo_analysis" then
          incrementDailyStat db3 "image_analysis" 1 now
        else if lt = "flux_generation" ∨ lt = "midjourney_generation" then
          incrementDailyStat db3 "image_generation" 1 now
        else db3
      (true, db4)

/-- One entry of the `limits` dict of `get_user_status`. -/
structure LimitStatus where
  used : Nat
  limit : Nat
  remaining : Nat
  allowed : Bool
  period_type : String
deriving Repr, DecidableEq

/-- The status dict of `get_user_status` (name columns omitted as in `User`). -/
structure UserStatus where
  user_id : Nat
  subscription_type : String
  subscription_expires : Option Nat
  referral_code : String
  referral_bonus_expires : Option Nat
  limits : List (String × LimitStatus)
deriving Repr, DecidableEq

/-- database.py `get_user_status`.  The user row is SELECTed before
`get_user_limits` runs (so before any lazy expiry reset), and the per-type
period branching re-reads that earlier row. -/
def get_user_status (db : DB) (uid : Nat) (now : Nat) : Option UserStatus × DB :=
  let db1 := ensureUser db uid now
  match alookup uid db1.users with
  | none => (none, db1)
  | some user_data =>
    let gul := get_user_limits db1 uid now
    let user_limits := gul.1
    let db2 := gul.2
    let entries := user_limits.map (fun p =>
      let lt := p.1
      let period_type : String :=
        if lt = "flux_generation" ∨ lt = "midjourney_generation" then
          if lt = "midjourney_generation" then
            if user_data.subscription_type = "premium" then "daily" else "weekly"
          else "weekly"
        else "daily"
      let used := get_usage_for_period db2 uid lt period_type now
      (lt, { used := used, limit := p.2, remaining := p.2 - used,
             allowed := decide (used < p.2), period_type := period_type : LimitStatus }))
    (some { user_id := uid,
            subscription_type := user_data.subscription_type,
            subscription_expires := user_data.subscription_expires,
            referral_code := user_data.referral_code,
            referral_bonus_expires := user_data.referral_bonus_expires,
            limits := entries }, db2)

/-- The SELECT plus single-row UPDATE of `confirm_payment`: the first row
matching the predicate (the row found by `fetchone` and then updated via its
unique rowid) is switched to status completed with `completed_at` stamped;
the pre-update row is returned, as `dict(payment)` is built from the SELECT. -/
def confirmFirst (test : Payment → Bool) (now : Nat) :
    List Payment → Option Payment × List Payment
  | [] => (none, [])
  | p :: rest =>
    if test p then
      (some p, { p with status := "completed", completed_at := some now } :: rest)
    else
      let r := confirmFirst test now rest
      (r.1, p :: r.2)

/-- The WHERE clause of the SELECT in `confirm_payment`: a pending payment by
payment_id (taking precedence) or by telegram_payment_charge_id; with neither
given no row can match (the code logs and returns before querying). -/
def confirmTest (pid cid : Option String) : Payment → Bool :=
  match pid with
  | some p => fun r => decide (r.payment_id = p) && decide (r.status = "pending")
  | none =>
    match cid with
    | some c => fun r =>
        decide (r.telegram_payment_charge_id = some c) && decide (r.status = "pending")
    | none => fun _ => false

/-- database.py `confirm_payment`: looks for a pending payment by payment_id
(taking precedence) or by telegram_payment_charge_id; with neither given, or
with no pending match, it returns None with no state change; otherwise the
row is completed and the payment stats are bumped. -/
def confirm_payment (db : DB) (pid : Option String) (cid : Option String) (now : Nat) :
    Option Payment × DB :=
  let res := confirmFirst (confirmTest pid cid) now db.payments
  match res.1 with
  | none => (none, db)
  | some pay =>
    let db1 : DB := { db with payments := res.2 }
    let db2 := incrementDailyStat db1 "payments_count" 1 now
    let db3 := incrementDailyStat db2 "revenue_stars" pay.amount now
    (some pay, db3)

/-- database.py `cancel_subscription`.  The SELECT's WHERE clause is
`charge_id = t OR payment_id = t AND status = 'completed'` — SQL binds AND
tighter than OR, which the embedding reproduces.  No match raises (the
`none` case); otherwise every row matching the UPDATE's filter (which has no
status condition) is set to cancelled and the payer's subscription is reset
to the free tier. -/
def cancel_subscription (db : DB) (tid : String) : Option DB :=
  match db.payments.find? (fun r =>
      decide (r.telegram_payment_charge_id = some tid) ||
      (decide (r.payment_id = tid) && decide (r.status = "completed"))) with
  | none => none
  | some pay =>
    let pays2 := db.payments.map (fun r =>
      if r.telegram_payment_charge_id = some tid ∨ r.payment_id = tid then
        { r with status := "cancelled" }
      else r)
    let db1 : DB := { db with payments := pays2 }
    let users2 :=
      aupdate pay.user_id
        (fun u => { u with subscription_type := "free", subscription_expires := none }) db1.users
    some { db1 with users := users2 }

/-- The three ways `bot.refund_star_payment` can come back in main.py
`process_refund`: a truthy result, a falsy result, or a raised exception. -/
inductive RefundOutcome where
  | success
  | failure
  | error
deriving Repr, DecidableEq

/-- main.py `process_refund`, restricted to its database effects: on a truthy
or falsy provider result alike, a from-db transaction is cancelled via
`cancel_subscription` (exceptions caught, state kept); on a raised exception
nothing is touched.  The Bool is the function's return value. -/
def process_refund (db : DB) (tid : String) (oc : RefundOutcome) (from_db : Bool) :
    Bool × DB :=
  match oc with
  | .success =>
    let db2 := if from_db then (cancel_subscription db tid).getD db else db
    (true, db2)
  | .failure =>
    let db2 := if from_db then (cancel_subscription db tid).getD db else db
    (false, db2)
  | .error => (false, db)

/-- database.py `get_user_by_referral_code`: first user row carrying the code. -/
def get_user_by_referral_code (db : DB) (code : String) : Option Nat :=
  (db.users.find? (fun p => decide (p.2.referral_code = code))).map (fun p => p.1)

/-- database.py `check_user_activity_before_referral`: any usage row other
than the bot_activity_marker counts as prior activity; the follow-up
freshness test on MAX(updated_at) ranges over the same rows, so it can only
fire when the count is positive (kept verbatim, including that dead branch). -/
def check_user_activity_before_referral (db : DB) (uid : Nat) (now : Nat) : Bool :=
  let rows := db.usage.filter (fun kv =>
    decide (kv.1.1 = uid) && decide (kv.1.2.1 ≠ "bot_activity_marker"))
  if rows.length > 0 then true
  else
    match (rows.map (fun kv => kv.2.updated_at)).max? with
    | some t => decide (now - t < REFERRAL_SETTINGS.activity_threshold_hours * secondsPerHour)
    | none => false

/-- database.py `is_eligible_for_referral_bonus`: the sequential early-return
checks, with the configured flags consulted exactly where the code does. -/
def is_eligible_for_referral_bonus (db : DB) (uid : Nat) (now : Nat) : Bool × String :=
  let step3 : Bool × String :=
    match alookup uid db.users with
    | some u =>
      if now - u.created_at > REFERRAL_SETTINGS.max_registration_age_hours * secondsPerHour then
        (false, "too_old")
      else (true, "eligible")
    | none => (true, "eligible")
  let step2 : Bool × String :=
    if !REFERRAL_SETTINGS.allow_bonus_for_active_users then
      if check_user_activity_before_referral db uid now then (false, "too_active") else step3
    else step3
  if !REFERRAL_SETTINGS.allow_multiple_referral_bonuses then
    if (db.referrals.filter (fun r => decide (r.invited_id = uid))).length > 0 then
      (false, "already_used")
    else step2
  else step2

/-- The referral-link part of main.py `start_cmd` (`/start <code>`), returning
the outcome keyword ("eligible" standing for the bonus_activated path) and
the database effects.  Python's truthiness of `invited_by` (None and 0 both
falsy) is kept; the final plain `create_user` runs only when no inviter was
resolved, exactly as in the handler.  `update_user_info` for an existing
user touches only the name columns, which the model omits. -/
def start_cmd_referral (db : DB) (uid : Nat) (code : String) (now : Nat) : String × DB :=
  let userExists := user_exists db uid
  let invited_by := get_user_by_referral_code db code
  let truthy : Bool :=
    match invited_by with
    | some i => decide (i ≠ 0)
    | none => false
  if truthy && !(decide (invited_by = some uid)) then
    let inviter := invited_by.getD 0
    let elig := is_eligible_for_referral_bonus db uid now
    if elig.1 then
      let db2 :=
        if !userExists then create_user db uid (some inviter) now
        else apply_referral_bonus_to_existing_user db uid inviter now
      ("eligible", db2)
    else (elig.2, db)
  else
    let r := if invited_by = some uid then "own_link" else "invalid_link"
    let db2 := if !userExists && !truthy then create_user db uid none now else db
    (r, db2)

/-- Limit-resolution test written after the spec's words, with the VIP clause
dropped (the amendment): a valid premium window gives the premium caps, an
active referral bonus doubles the free caps, otherwise the free defaults. -/
def premiumActive (u : User) (now : Nat) : Bool :=
  decide (u.subscription_type = "premium") &&
    (match u.subscription_expires with
     | some e => decide (e > now)
     | none => false)

/-- Whether the stored referral bonus window is still open. -/
def referralBonusActive (u : User) (now : Nat) : Bool :=
  match u.referral_bonus_expires with
  | some b => decide (b > now)
  | none => false

/-- The amended resolution order of claim C3, as a flat rule table. -/
def specResolvedLimits (ou : Option User) (now : Nat) : List (String × Nat) :=
  match ou with
  | none => FREE_LIMITS
  | some u =>
    if premiumActive u now then PREMIUM_LIMITS
    else if referralBonusActive u now then doubleLimits FREE_LIMITS
    else FREE_LIMITS

/-- The period-bucketing rule of claim C8 as a single table: flux weekly,
midjourney daily for premium and weekly otherwise, everything else daily. -/
def bucket_of (lt : String) (isPrem : Bool) : String :=
  if lt = "flux_generation" ∨ lt = "midjourney_generation" then
    if lt = "midjourney_generation" then
      if isPrem then "daily" else "weekly"
    else "weekly"
  else "daily"

/-- Whether the stored users row currently says premium (no expiry check). -/
def storedPremium (db : DB) (uid : Nat) : Bool :=
  match alookup uid db.users with
  | some u => decide (u.subscription_type = "premium")
  | none => false

/-- The stored state that makes the lazy expiry reset fire: a premium row
whose expiry timestamp is set and not in the future. -/
def expiredPremium (db : DB) (uid : Nat) (now : Nat) : Bool :=
  match alookup uid db.users with
  | some u =>
    decide (u.subscription_type = "premium") &&
      (match u.subscription_expires with
       | some e => decide (¬ e > now)
       | none => false)
  | none => false

/-- The registration-age early return of the eligibility check, isolated. -/
def tooOldUser (db : DB) (uid : Nat) (now : Nat) : Bool :=
  match alookup uid db.users with
  | some u =>
    decide (now - u.created_at > REFERRAL_SETTINGS.max_registration_age_hours * secondsPerHour)
  | none => false

/-- Claim C7's flat ordered decision list for a `/start <code>` redemption. -/
def specOutcome (db : DB) (uid : Nat) (code : String) (now : Nat) : String :=
  match get_user_by_referral_code db code with
  | none => "invalid_link"
  | some inviter =>
    if inviter = uid then "own_link"
    else if (db.referrals.filter (fun r => decide (r.invited_id = uid))).length > 0 then
      "already_used"
    else if check_user_activity_before_referral db uid now then "too_active"
    else if tooOldUser db uid now then "too_old"
    else "eligible"

/-- Which daily aggregate stat `use_limit` bumps for a limit type. -/
def statFor (lt : String) : Option String :=
  if lt = "free_text_requests" ∨ lt = "premium_text_requests" then some "text_requests"
  else if lt = "photo_analysis" then some "image_analysis"
  else if lt = "flux_generation" ∨ lt = "midjourney_generation" then some "image_generation"
  else none

/-- The stored usage count for a counter key, 0 when the row is absent. -/
def usageCount (db : DB) (uid : Nat) (lt : String) (start : Nat) : Nat :=
  match alookup (uid, lt, start) db.usage with
  | some row => row.usage_count
  | none => 0

end TgBot

namespace TgBot

/-! ### Association-table lemmas -/

theorem alookup_aupdate {κ α : Type} [DecidableEq κ] (k i : κ) (f : α → α)
    (l : List (κ × α)) :
    alookup i (aupdate k f l) = if i = k then (alookup i l).map f else alookup i l := by
  induction l with
  | nil => simp [aupdate, alookup]
  | cons p rest ih =>
    obtain ⟨k2, v⟩ := p
    show alookup i ((if k2 = k then (k2, f v) else (k2, v)) :: aupdate k f rest) =
      if i = k then (alookup i ((k2, v) :: rest)).map f else alookup i ((k2, v) :: rest)
    by_cases h2 : k2 = k
    · subst h2
      rw [if_pos rfl]
      by_cases h1 : i = k2
      · subst h1
        simp [alookup]
      · simp only [alookup, if_neg h1, ih]
    · rw [if_neg h2]
      by_cases h1 : i = k2
      · subst h1
        simp [alookup, h2]
      · simp only [alookup, if_neg h1, ih]

theorem alookup_append_none {κ α : Type} [DecidableEq κ] (k : κ)
    (l m : List (κ × α)) (h : alookup k l = none) :
    alookup k (l ++ m) = alookup k m := by
  induction l with
  | nil => simp
  | cons p rest ih =>
    obtain ⟨k2, v⟩ := p
    by_cases h1 : k = k2 <;> simp_all [alookup]

theorem alookup_append_some {κ α : Type} [DecidableEq κ] (k : κ)
    (l m : List (κ × α)) (v : α) (h : alookup k l = some v) :
    alookup k (l ++ m) = some v := by
  induction l with
  | nil => simp [alookup] at h
  | cons p rest ih =>
    obtain ⟨k2, w⟩ := p
    by_cases h1 : k = k2 <;> simp_all [alookup]

theorem alookup_filter_self {κ α : Type} [DecidableEq κ] (k : κ) (l : List (κ × α)) :
    alookup k (l.filter (fun p => decide (p.1 ≠ k))) = none := by
  induction l with
  | nil => simp [alookup]
  | cons p rest ih =>
    obtain ⟨k2, v⟩ := p
    by_cases h1 : k2 = k <;> simp_all [alookup]
    intro h2
    exact absurd h2.symm h1

theorem alookup_filter_other {κ α : Type} [DecidableEq κ] (k k2 : κ) (l : List (κ × α))
    (h : k2 ≠ k) :
    alookup k2 (l.filter (fun p => decide (p.1 ≠ k))) = alookup k2 l := by
  induction l with
  | nil => simp
  | cons p rest ih =>
    obtain ⟨k3, v⟩ := p
    by_cases h1 : k3 = k <;> by_cases h3 : k2 = k3 <;> simp_all [alookup]

theorem alookup_aupsert_self {κ α : Type} [DecidableEq κ] (k : κ) (v : α)
    (l : List (κ × α)) :
    alookup k (aupsert k v l) = some v := by
  unfold aupsert
  rw [alookup_append_none k _ _ (alookup_filter_self k l)]
  simp [alookup]

theorem alookup_aupsert_ne {κ α : Type} [DecidableEq κ] (k k2 : κ) (v : α)
    (l : List (κ × α)) (h : k2 ≠ k) :
    alookup k2 (aupsert k v l) = alookup k2 l := by
  unfold aupsert
  cases h2 : alookup k2 l with
  | none =>
    rw [alookup_append_none k2 _ _ (by rw [alookup_filter_other k k2 l h]; exact h2)]
    simp [alookup, h]
  | some w =>
    exact alookup_append_some k2 _ _ w (by rw [alookup_filter_other k k2 l h]; exact h2)

theorem alookup_map_pair {κ α β : Type} [DecidableEq κ] (g : κ × α → β)
    (l : List (κ × α)) (k : κ) :
    alookup k (l.map (fun p => (p.1, g p))) = (alookup k l).map (fun v => g (k, v)) := by
  induction l with
  | nil => simp [alookup]
  | cons p rest ih =>
    obtain ⟨k2, v⟩ := p
    by_cases h : k = k2
    · subst h; simp [alookup, ih]
    · simp [alookup, h, ih]

/-! ### State-preservation lemmas for the modelled operations -/

theorem incrementDailyStat_users (db : DB) (n : String) (v now : Nat) :
    (incrementDailyStat db n v now).users = db.users := rfl

theorem incrementDailyStat_usage (db : DB) (n : String) (v now : Nat) :
    (incrementDailyStat db n v now).usage = db.usage := rfl

theorem incrementDailyStat_referrals (db : DB) (n : String) (v now : Nat) :
    (incrementDailyStat db n v now).referrals = db.referrals := rfl

theorem incrementDailyStat_payments (db : DB) (n : String) (v now : Nat) :
    (incrementDailyStat db n v now).payments = db.payments := rfl

theorem create_user_usage (db : DB) (uid : Nat) (ib : Option Nat) (now : Nat) :
    (create_user db uid ib now).usage = db.usage := by
  unfold create_user
  split
  · rfl
  · cases ib <;> rfl

theorem create_user_payments (db : DB) (uid : Nat) (ib : Option Nat) (now : Nat) :
    (create_user db uid ib now).payments = db.payments := by
  unfold create_user
  split
  · rfl
  · cases ib <;> rfl

theorem ensureUser_usage (db : DB) (uid now : Nat) :
    (ensureUser db uid now).usage = db.usage := by
  unfold ensureUser
  split
  · rfl
  · exact create_user_usage db uid none now

theorem ensureUser_payments (db : DB) (uid now : Nat) :
    (ensureUser db uid now).payments = db.payments := by
  unfold ensureUser
  split
  · rfl
  · exact create_user_payments db uid none now

theorem reset_subscription_usage (db : DB) (uid now : Nat) :
    (reset_subscription db uid now).usage = db.usage :=
  ensureUser_usage db uid now

theorem reset_subscription_payments (db : DB) (uid now : Nat) :
    (reset_subscription db uid now).payments = db.payments :=
  ensureUser_payments db uid now

theorem get_user_limits_usage (db : DB) (uid now : Nat) :
    (get_user_limits db uid now).2.usage = db.usage := by
  unfold get_user_limits
  cases h : alookup uid db.users with
  | none => rfl
  | some u =>
    by_cases hp : u.subscription_type = "premium"
    · cases he : u.subscription_expires with
      | none => simp [hp, he]
      | some e =>
        by_cases hgt : e > now
        · simp [hp, he, hgt]
        · simp [hp, he, hgt, reset_subscription_usage]
    · simp [hp]

theorem get_user_limits_payments (db : DB) (uid now : Nat) :
    (get_user_limits db uid now).2.payments = db.payments := by
  unfold get_user_limits
  cases h : alookup uid db.users with
  | none => rfl
  | some u =>
    by_cases hp : u.subscription_type = "premium"
    · cases he : u.subscription_expires with
      | none => simp [hp, he]
      | some e =>
        by_cases hgt : e > now
        · simp [hp, he, hgt]
        · simp [hp, he, hgt, reset_subscription_payments]
    · simp [hp]

theorem check_limit_snd (db : DB) (uid : Nat) (lt : String) (now : Nat) :
    (check_limit db uid lt now).2 = (get_user_limits (ensureUser db uid now) uid now).2 := rfl

theorem check_limit_usage (db : DB) (uid : Nat) (lt : String) (now : Nat) :
    (check_limit db uid lt now).2.usage = db.usage := by
  rw [check_limit_snd, get_user_limits_usage, ensureUser_usage]

end TgBot

namespace TgBot

/-! ### Concrete database states used by scenario conjuncts, counterexamples
and witnesses -/

def emptyStats : Nat → Option DailyStats := fun _ => none

/-- A free-tier user (id 7) with 75 free_text_requests already counted in the
daily bucket of day 0. -/
def exDB75 : DB :=
  { users := [(7, { referral_code := "REFA7", created_at := 0 })],
    usage := [((7, "free_text_requests", 0),
      { usage_count := 75, period_end := 0, period_type := "daily", updated_at := 500 })],
    referrals := [], payments := [], stats := emptyStats }

/-- A user (id 1) stored as premium whose expiry (100) is already in the past
at time 200. -/
def expPremDB : DB :=
  { users := [(1, { subscription_type := "premium", subscription_expires := some 100,
                    referral_code := "REFB1", created_at := 0 })],
    usage := [], referrals := [], payments := [], stats := emptyStats }

/-- A user (id 1) whose stored subscription_type is the string "vip". -/
def vipDB : DB :=
  { users := [(1, { subscription_type := "vip", subscription_expires := some 1000000,
                    referral_code := "REFV1", created_at := 0 })],
    usage := [], referrals := [], payments := [], stats := emptyStats }

/-- A premium user (id 1) with one completed payment, payment_id "p1" and
telegram charge id "t1". -/
def refundDB : DB :=
  { users := [(1, { subscription_type := "premium", subscription_expires := some 999999,
                    referral_code := "REFR1", created_at := 0 })],
    usage := [], referrals := [],
    payments := [{ user_id := 1, payment_id := "p1", amount := 555, status := "completed",
                   subscription_type := "month", telegram_payment_charge_id := some "t1" }],
    stats := emptyStats }

/-! ### Evaluation lemmas for check_limit and use_limit -/

theorem check_limit_remaining_def (db : DB) (uid : Nat) (lt : String) (now : Nat) :
    (check_limit db uid lt now).1.remaining =
      (check_limit db uid lt now).1.limit - (check_limit db uid lt now).1.used := rfl

theorem check_limit_allowed_def (db : DB) (uid : Nat) (lt : String) (now : Nat) :
    (check_limit db uid lt now).1.allowed =
      decide ((check_limit db uid lt now).1.used < (check_limit db uid lt now).1.limit) := rfl

theorem check_limit_used_def (db : DB) (uid : Nat) (lt : String) (now : Nat) :
    (check_limit db uid lt now).1.used =
      get_usage_for_period (check_limit db uid lt now).2 uid lt
        (check_limit db uid lt now).1.period_type now := rfl

theorem check_limit_limit_def (db : DB) (uid : Nat) (lt : String) (now : Nat) :
    (check_limit db uid lt now).1.limit =
      (alookup lt (get_user_limits (ensureUser db uid now) uid now).1).getD 0 := rfl

theorem use_limit_of_not_allowed (db : DB) (uid : Nat) (lt : String) (now : Nat)
    (h : (check_limit db uid lt now).1.allowed = false) :
    use_limit db uid lt now = (false, (check_limit db uid lt now).2) := by
  unfold use_limit
  simp [h]

/-- The create path of `ensureUser` resolves the fresh user to the free-tier
defaults, so the first component of `get_user_limits` is insensitive to the
ensure step. -/
theorem get_user_limits_fst_ensure (db : DB) (uid now : Nat) :
    (get_user_limits (ensureUser db uid now) uid now).1 = (get_user_limits db uid now).1 := by
  unfold ensureUser
  by_cases hex : user_exists db uid = true
  · rw [if_pos hex]
  · rw [if_neg hex]
    have hexf : user_exists db uid = false := by
      cases h : user_exists db uid
      · rfl
      · exact absurd h hex
    have hnone : alookup uid db.users = none := by
      unfold user_exists at hexf
      cases h : alookup uid db.users
      · rfl
      · rw [h] at hexf
        simp at hexf
    have husers : (create_user db uid none now).users =
        db.users ++ [(uid, newUser uid none now)] := by
      unfold create_user
      rw [if_neg hex]
      rfl
    have hlook : alookup uid (create_user db uid none now).users =
        some (newUser uid none now) := by
      rw [husers, alookup_append_none uid _ _ hnone]
      simp [alookup]
    have h1 : (get_user_limits db uid now).1 = FREE_LIMITS := by
      simp only [get_user_limits, hnone]
    have h2 : (get_user_limits (create_user db uid none now) uid now).1 = FREE_LIMITS := by
      simp only [get_user_limits, hlook]
      simp [newUser]
    rw [h1, h2]

end TgBot

namespace TgBot

/-- C1: for every user and limit type, check_limit reports
remaining = max(0, cap - used) and allowed = (used < cap), where used is the
stored counter of the current period bucket; concretely, a free user with 75
prior free_text_requests in today's daily bucket is denied with used = 75,
and the same call after the day rollover is allowed with used = 0. -/
theorem check_limit_formula (db : DB) (uid : Nat) (lt : String) (now : Nat) :
    (((check_limit db uid lt now).1.remaining : Int) =
        max 0 (((check_limit db uid lt now).1.limit : Int) -
          ((check_limit db uid lt now).1.used : Int))) ∧
    ((check_limit db uid lt now).1.allowed = true ↔
        (check_limit db uid lt now).1.used < (check_limit db uid lt now).1.limit) ∧
    ((check_limit db uid lt now).1.used =
        get_usage_for_period (check_limit db uid lt now).2 uid lt
          (check_limit db uid lt now).1.period_type now) ∧
    (check_limit exDB75 7 "free_text_requests" 1000).1.allowed = false ∧
    (check_limit exDB75 7 "free_text_requests" 1000).1.used = 75 ∧
    (check_limit exDB75 7 "free_text_requests" 87400).1 =
      { allowed := true, used := 0, limit := 75, remaining := 75, period_type := "daily" } := by
  refine ⟨?_, ?_, rfl, by decide, by decide, by decide⟩
  · rw [check_limit_remaining_def]
    omega
  · rw [check_limit_allowed_def]
    exact ⟨of_decide_eq_true, decide_eq_true⟩

/-- C10: whenever the resolved cap for a limit type is 0 (in particular for
any type absent from the configured tables, which defaults to 0), check_limit
denies with limit = 0 and remaining = 0, and use_limit returns false leaving
the whole usage table untouched. -/
theorem zero_cap_denies (db : DB) (uid : Nat) (lt : String) (now : Nat)
    (h : (alookup lt (get_user_limits db uid now).1).getD 0 = 0) :
    (check_limit db uid lt now).1.allowed = false ∧
    (check_limit db uid lt now).1.limit = 0 ∧
    (check_limit db uid lt now).1.remaining = 0 ∧
    (use_limit db uid lt now).1 = false ∧
    (use_limit db uid lt now).2.usage = db.usage := by
  have hl0 : (check_limit db uid lt now).1.limit = 0 := by
    rw [check_limit_limit_def, get_user_limits_fst_ensure]
    exact h
  have hal : (check_limit db uid lt now).1.allowed = false := by
    rw [check_limit_allowed_def, hl0]
    simp
  have hrem : (check_limit db uid lt now).1.remaining = 0 := by
    rw [check_limit_remaining_def, hl0]
    simp
  have hu : use_limit db uid lt now = (false, (check_limit db uid lt now).2) :=
    use_limit_of_not_allowed db uid lt now hal
  refine ⟨hal, hl0, hrem, by rw [hu], ?_⟩
  rw [hu]
  exact check_limit_usage db uid lt now

/-- Concrete witness for zero_cap_denies: the unknown limit type
"frobnicate" is denied for the user of exDB75 with no counter row created. -/
theorem zero_cap_denies_witness :
    ((alookup "frobnicate" (get_user_limits exDB75 7 1000).1).getD 0 = 0) ∧
    ((check_limit exDB75 7 "frobnicate" 1000).1.allowed = false ∧
     (check_limit exDB75 7 "frobnicate" 1000).1.limit = 0 ∧
     (check_limit exDB75 7 "frobnicate" 1000).1.remaining = 0 ∧
     (use_limit exDB75 7 "frobnicate" 1000).1 = false ∧
     (use_limit exDB75 7 "frobnicate" 1000).2.usage = exDB75.usage) :=
  ⟨by decide, zero_cap_denies exDB75 7 "frobnicate" 1000 (by decide)⟩

end TgBot

namespace TgBot

theorem check_limit_period_def (db : DB) (uid : Nat) (lt : String) (now : Nat) :
    (check_limit db uid lt now).1.period_type =
      (if lt = "flux_generation" ∨ lt = "midjourney_generation" then
        if lt = "midjourney_generation" then
          if (match alookup uid (get_user_limits (ensureUser db uid now) uid now).2.users with
              | some u => decide (u.subscription_type = "premium")
              | none => false) = true then "daily" else "weekly"
        else "weekly"
      else "daily") := rfl

theorem check_limit_period_cases (db : DB) (uid : Nat) (lt : String) (now : Nat) :
    (check_limit db uid lt now).1.period_type = "daily" ∨
    (check_limit db uid lt now).1.period_type = "weekly" := by
  rw [check_limit_period_def]
  split
  · split
    · split
      · exact Or.inl rfl
      · exact Or.inr rfl
    · exact Or.inr rfl
  · exact Or.inl rfl

theorem statValue_getD (db : DB) (day : Nat) (name : String) :
    statValue db day name = statField ((db.stats day).getD {}) name := by
  unfold statValue
  cases h : db.stats day
  · unfold statField
    split_ifs <;> rfl
  · rfl

theorem statValue_increment (db : DB) (name : String) (v now : Nat)
    (hn : name = "new_users" ∨ name = "text_requests" ∨ name = "image_analysis" ∨
      name = "image_generation" ∨ name = "payments_count" ∨ name = "revenue_stars") :
    statValue (incrementDailyStat db name v now) (dayOf now) name =
      statValue db (dayOf now) name + v := by
  have hL : statValue (incrementDailyStat db name v now) (dayOf now) name =
      statField (bumpStat ((db.stats (dayOf now)).getD {}) name v) name := by
    unfold statValue incrementDailyStat
    show (match (if dayOf now = dayOf now then
        some (bumpStat ((db.stats (dayOf now)).getD {}) name v)
      else db.stats (dayOf now)) with
      | some s => statField s name
      | none => 0) =
      statField (bumpStat ((db.stats (dayOf now)).getD {}) name v) name
    rw [if_pos rfl]
  rw [hL, statValue_getD]
  rcases hn with h | h | h | h | h | h <;> subst h <;>
    simp [bumpStat, statField]

/-- Proof-side name for the counter upsert of `use_limit`, definitionally the
body of its allowed branch. -/
def bumpUsage (dbc : DB) (uid : Nat) (lt : String) (start stop now : Nat) (pt : String) : DB :=
  let prev : Nat :=
    match alookup (uid, lt, start) dbc.usage with
    | some row => row.usage_count
    | none => 0
  let row : UsageRow :=
    { usage_count := prev + 1, period_end := stop, period_type := pt, updated_at := now }
  { dbc with usage := aupsert (uid, lt, start) row dbc.usage }

/-- Proof-side name for the per-category stat bump of `use_limit`. -/
def statBump (db3 : DB) (lt : String) (now : Nat) : DB :=
  if lt = "free_text_requests" ∨ lt = "premium_text_requests" then
    incrementDailyStat db3 "text_requests" 1 now
  else if lt = "photo_analysis" then
    incrementDailyStat db3 "image_analysis" 1 now
  else if lt = "flux_generation" ∨ lt = "midjourney_generation" then
    incrementDailyStat db3 "image_generation" 1 now
  else db3

theorem use_limit_of_allowed (db : DB) (uid : Nat) (lt : String) (now start stop : Nat)
    (h : (check_limit db uid lt now).1.allowed = true)
    (hp : get_period_dates (check_limit db uid lt now).1.period_type (dayOf now) =
      some (start, stop)) :
    use_limit db uid lt now =
      (true,
       statBump
         (bumpUsage (check_limit db uid lt now).2 uid lt start stop now
           (check_limit db uid lt now).1.period_type) lt now) := by
  unfold use_limit statBump bumpUsage
  simp only [h, Bool.not_true, Bool.false_eq_true, if_false, hp]

end TgBot

namespace TgBot

/-- C2: use_limit first re-checks via check_limit; when the check denies it
returns false leaving every usage counter unchanged, and when the check
passes it returns true, upsert-increments the counter row of the current
period bucket by exactly one (all other counter rows left as the check
produced them), and adds one to the matching daily aggregate stat. -/
theorem use_limit_spec (db : DB) (uid : Nat) (lt : String) (now : Nat) :
    ((check_limit db uid lt now).1.allowed = false →
      use_limit db uid lt now = (false, (check_limit db uid lt now).2) ∧
      (use_limit db uid lt now).2.usage = db.usage) ∧
    ((check_limit db uid lt now).1.allowed = true →
      (use_limit db uid lt now).1 = true ∧
      (∃ start stop,
        get_period_dates (check_limit db uid lt now).1.period_type (dayOf now) =
          some (start, stop) ∧
        usageCount (use_limit db uid lt now).2 uid lt start =
          usageCount db uid lt start + 1 ∧
        (∀ k : Nat × String × Nat, k ≠ (uid, lt, start) →
          alookup k (use_limit db uid lt now).2.usage =
            alookup k (check_limit db uid lt now).2.usage)) ∧
      (∀ sname : String, statFor lt = some sname →
        statValue (use_limit db uid lt now).2 (dayOf now) sname =
          statValue (check_limit db uid lt now).2 (dayOf now) sname + 1)) := by
  have hsb : ∀ d : DB, (statBump d lt now).usage = d.usage := by
    intro d
    unfold statBump
    split_ifs <;> rfl
  constructor
  · intro h
    have hu := use_limit_of_not_allowed db uid lt now h
    refine ⟨hu, ?_⟩
    rw [hu]
    exact check_limit_usage db uid lt now
  · intro h
    have hps : ∃ start stop,
        get_period_dates (check_limit db uid lt now).1.period_type (dayOf now) =
          some (start, stop) := by
      rcases check_limit_period_cases db uid lt now with hpt | hpt <;> rw [hpt]
      · exact ⟨dayOf now, dayOf now, by simp [get_period_dates]⟩
      · exact ⟨dayOf now - dayOf now % 7, dayOf now - dayOf now % 7 + 6,
          by simp [get_period_dates]⟩
    obtain ⟨start, stop, hp⟩ := hps
    have hlem := use_limit_of_allowed db uid lt now start stop h hp
    have hrow : alookup (uid, lt, start)
        (bumpUsage (check_limit db uid lt now).2 uid lt start stop now
          (check_limit db uid lt now).1.period_type).usage =
        some { usage_count := usageCount (check_limit db uid lt now).2 uid lt start + 1,
               period_end := stop,
               period_type := (check_limit db uid lt now).1.period_type,
               updated_at := now } := by
      simp only [bumpUsage, usageCount]
      exact alookup_aupsert_self _ _ _
    have h2 : usageCount (bumpUsage (check_limit db uid lt now).2 uid lt start stop now
        (check_limit db uid lt now).1.period_type) uid lt start =
        usageCount (check_limit db uid lt now).2 uid lt start + 1 := by
      unfold usageCount
      rw [show alookup (uid, lt, start)
        (bumpUsage (check_limit db uid lt now).2 uid lt start stop now
          (check_limit db uid lt now).1.period_type).usage =
        some { usage_count := usageCount (check_limit db uid lt now).2 uid lt start + 1,
               period_end := stop,
               period_type := (check_limit db uid lt now).1.period_type,
               updated_at := now } from hrow]
      rfl
    have h3 : usageCount (check_limit db uid lt now).2 uid lt start =
        usageCount db uid lt start := by
      unfold usageCount
      rw [check_limit_usage]
    refine ⟨by rw [hlem], ⟨start, stop, hp, ?_, ?_⟩, ?_⟩
    · rw [hlem]
      show usageCount (statBump (bumpUsage (check_limit db uid lt now).2 uid lt start stop now
        (check_limit db uid lt now).1.period_type) lt now) uid lt start =
        usageCount db uid lt start + 1
      have h1 : usageCount (statBump (bumpUsage (check_limit db uid lt now).2 uid lt start
          stop now (check_limit db uid lt now).1.period_type) lt now) uid lt start =
          usageCount (bumpUsage (check_limit db uid lt now).2 uid lt start stop now
            (check_limit db uid lt now).1.period_type) uid lt start := by
        unfold usageCount
        rw [hsb]
      rw [h1, h2, h3]
    · intro k hk
      rw [hlem]
      show alookup k (statBump (bumpUsage (check_limit db uid lt now).2 uid lt start stop now
        (check_limit db uid lt now).1.period_type) lt now).usage =
        alookup k (check_limit db uid lt now).2.usage
      rw [hsb]
      simp only [bumpUsage]
      exact alookup_aupsert_ne _ k _ _ hk
    · intro sname hs
      rw [hlem]
      have hst : ∀ n : String, statValue (bumpUsage (check_limit db uid lt now).2 uid lt
          start stop now (check_limit db uid lt now).1.period_type) (dayOf now) n =
          statValue (check_limit db uid lt now).2 (dayOf now) n := by
        intro n
        rfl
      by_cases c1 : lt = "free_text_requests" ∨ lt = "premium_text_requests"
      · have hsn : sname = "text_requests" := by
          unfold statFor at hs
          rw [if_pos c1] at hs
          exact (Option.some.inj hs).symm
        subst hsn
        have hsb2 : statBump (bumpUsage (check_limit db uid lt now).2 uid lt start stop now
            (check_limit db uid lt now).1.period_type) lt now =
            incrementDailyStat (bumpUsage (check_limit db uid lt now).2 uid lt start stop now
              (check_limit db uid lt now).1.period_type) "text_requests" 1 now := by
          unfold statBump
          rw [if_pos c1]
        rw [hsb2, statValue_increment _ _ _ _ (Or.inr (Or.inl rfl)), hst]
      · by_cases c2 : lt = "photo_analysis"
        · have hsn : sname = "image_analysis" := by
            unfold statFor at hs
            rw [if_neg c1, if_pos c2] at hs
            exact (Option.some.inj hs).symm
          subst hsn
          have hsb2 : statBump (bumpUsage (check_limit db uid lt now).2 uid lt start stop now
              (check_limit db uid lt now).1.period_type) lt now =
              incrementDailyStat (bumpUsage (check_limit db uid lt now).2 uid lt start stop now
                (check_limit db uid lt now).1.period_type) "image_analysis" 1 now := by
            unfold statBump
            rw [if_neg c1, if_pos c2]
          rw [hsb2, statValue_increment _ _ _ _ (Or.inr (Or.inr (Or.inl rfl))), hst]
        · by_cases c3 : lt = "flux_generation" ∨ lt = "midjourney_generation"
          · have hsn : sname = "image_generation" := by
              unfold statFor at hs
              rw [if_neg c1, if_neg c2, if_pos c3] at hs
              exact (Option.some.inj hs).symm
            subst hsn
            have hsb2 : statBump (bumpUsage (check_limit db uid lt now).2 uid lt start stop now
                (check_limit db uid lt now).1.period_type) lt now =
                incrementDailyStat (bumpUsage (check_limit db uid lt now).2 uid lt start stop
                  now (check_limit db uid lt now).1.period_type) "image_generation" 1 now := by
              unfold statBump
              rw [if_neg c1, if_neg c2, if_pos c3]
            rw [hsb2, statValue_increment _ _ _ _ (Or.inr (Or.inr (Or.inr (Or.inl rfl)))), hst]
          · unfold statFor at hs
            rw [if_neg c1, if_neg c2, if_neg c3] at hs
            exact absurd hs (by simp)

/-- Concrete witness for use_limit_spec: the allowed branch at a free user
with no photo_analysis usage yet. -/
theorem use_limit_spec_witness :
    (check_limit exDB75 7 "photo_analysis" 1000).1.allowed = true ∧
    ((use_limit exDB75 7 "photo_analysis" 1000).1 = true ∧
      (∃ start stop,
        get_period_dates (check_limit exDB75 7 "photo_analysis" 1000).1.period_type
          (dayOf 1000) = some (start, stop) ∧
        usageCount (use_limit exDB75 7 "photo_analysis" 1000).2 7 "photo_analysis" start =
          usageCount exDB75 7 "photo_analysis" start + 1 ∧
        (∀ k : Nat × String × Nat, k ≠ (7, "photo_analysis", start) →
          alookup k (use_limit exDB75 7 "photo_analysis" 1000).2.usage =
            alookup k (check_limit exDB75 7 "photo_analysis" 1000).2.usage)) ∧
      (∀ sname : String, statFor "photo_analysis" = some sname →
        statValue (use_limit exDB75 7 "photo_analysis" 1000).2 (dayOf 1000) sname =
          statValue (check_limit exDB75 7 "photo_analysis" 1000).2 (dayOf 1000) sname + 1)) :=
  ⟨by decide, (use_limit_spec exDB75 7 "photo_analysis" 1000).2 (by decide)⟩

end TgBot

namespace TgBot

/-- C3 counterexample: a user whose stored subscription_type is "vip" gets
the plain free-tier caps from get_user_limits (75 text requests, 0 voice),
not any unlimited override; the function has no VIP branch at all. -/
theorem vip_user_gets_free_caps :
    (get_user_limits vipDB 1 0).1 = FREE_LIMITS ∧
    alookup "free_text_requests" (get_user_limits vipDB 1 0).1 = some 75 ∧
    alookup "voice_processing" (get_user_limits vipDB 1 0).1 = some 0 :=
  ⟨by decide, by decide, by decide⟩

/-- C3 amended: the cap table a user receives is resolved as premium caps
when a premium subscription with a future expiry is stored, else doubled
free caps while a referral bonus is active, else the free defaults — with
no VIP clause anywhere (an unknown tier string such as "vip" falls through
to the non-premium branches). -/
theorem limit_resolution_order (db : DB) (uid now : Nat) :
    (get_user_limits db uid now).1 = specResolvedLimits (alookup uid db.users) now := by
  unfold get_user_limits specResolvedLimits
  cases h : alookup uid db.users with
  | none => rfl
  | some u =>
    unfold premiumActive referralBonusActive
    by_cases hp : u.subscription_type = "premium"
    · cases he : u.subscription_expires with
      | none => simp [hp, he]
      | some e =>
        by_cases hgt : e > now
        · simp [hp, he, hgt]
        · simp [hp, he, hgt]
    · simp [hp]

/-- The user row stored in expPremDB. -/
def expPremUser : User :=
  { subscription_type := "premium", subscription_expires := some 100,
    referral_code := "REFB1", created_at := 0 }

/-- C4 counterexample: for a premium subscription whose expiry (100) has
passed by read time 200, the first get_user_status still reports
subscription_type "premium": the user row is SELECTed before the lazy reset
inside get_user_limits runs. -/
theorem expired_premium_first_status_read_stale :
    ((get_user_status expPremDB 1 200).1).map UserStatus.subscription_type = some "premium" ∧
    ("premium" : String) ≠ "free" :=
  ⟨by decide, by decide⟩

/-- C4 amended: reading the limits of an expired premium user yields the
free-tier caps (doubled only under an active referral bonus) and resets the
stored row to subscription_type "free" with the expiry cleared, so every
get_user_status run on the resulting state reports tier "free"; only the
status read that races the very first limits read can still see the stale
"premium" value. -/
theorem expired_subscription_lazy_reset (db : DB) (uid now e : Nat) (u : User)
    (hu : alookup uid db.users = some u)
    (ht : u.subscription_type = "premium")
    (he : u.subscription_expires = some e)
    (hle : ¬ e > now) :
    (get_user_limits db uid now).1 =
      (if referralBonusActive u now then doubleLimits FREE_LIMITS else FREE_LIMITS) ∧
    alookup uid (get_user_limits db uid now).2.users =
      some { u with subscription_type := "free", subscription_expires := none } ∧
    (∀ now2 : Nat,
      ((get_user_status (get_user_limits db uid now).2 uid now2).1).map
        UserStatus.subscription_type = some "free") := by
  have hex : user_exists db uid = true := by
    unfold user_exists
    rw [hu]
    rfl
  have hfst : (get_user_limits db uid now).1 =
      (if referralBonusActive u now then doubleLimits FREE_LIMITS else FREE_LIMITS) := by
    unfold get_user_limits referralBonusActive
    simp only [hu]
    cases hb : u.referral_bonus_expires <;> simp [hb, ht, he, hle]
  have hdb2 : (get_user_limits db uid now).2 = reset_subscription db uid now := by
    unfold get_user_limits
    simp only [hu]
    simp [ht, he, hle]
  have hres : (reset_subscription db uid now).users =
      aupdate uid
        (fun v => { v with subscription_type := "free", subscription_expires := none })
        db.users := by
    unfold reset_subscription ensureUser
    rw [if_pos hex]
  have hl2 : alookup uid (get_user_limits db uid now).2.users =
      some { u with subscription_type := "free", subscription_expires := none } := by
    rw [hdb2, hres, alookup_aupdate, if_pos rfl, hu]
    rfl
  refine ⟨hfst, hl2, ?_⟩
  intro now2
  have hex2 : user_exists (get_user_limits db uid now).2 uid = true := by
    unfold user_exists
    rw [hl2]
    rfl
  unfold get_user_status
  rw [show ensureUser (get_user_limits db uid now).2 uid now2 =
      (get_user_limits db uid now).2 from by
    unfold ensureUser
    rw [if_pos hex2]]
  simp only [hl2]
  rfl

end TgBot

namespace TgBot

/-- Concrete witness for expired_subscription_lazy_reset at expPremDB. -/
theorem expired_subscription_lazy_reset_witness :
    (alookup 1 expPremDB.users = some expPremUser) ∧
    expPremUser.subscription_type = "premium" ∧
    expPremUser.subscription_expires = some 100 ∧
    ¬ (100 > 200) ∧
    ((get_user_limits expPremDB 1 200).1 =
      (if referralBonusActive expPremUser 200 then doubleLimits FREE_LIMITS
       else FREE_LIMITS) ∧
     alookup 1 (get_user_limits expPremDB 1 200).2.users =
       some { expPremUser with subscription_type := "free", subscription_expires := none } ∧
     (∀ now2 : Nat,
       ((get_user_status (get_user_limits expPremDB 1 200).2 1 now2).1).map
         UserStatus.subscription_type = some "free")) :=
  ⟨by decide, by decide, by decide, by decide,
    expired_subscription_lazy_reset expPremDB 1 200 100 expPremUser
      (by decide) (by decide) (by decide) (by decide)⟩

theorem alookup_none_of_not_exists (db : DB) (uid : Nat)
    (hex : ¬ user_exists db uid = true) : alookup uid db.users = none := by
  unfold user_exists at hex
  cases h : alookup uid db.users
  · rfl
  · rw [h] at hex
    simp at hex

theorem create_user_users_plain (db : DB) (uid now : Nat)
    (hex : ¬ user_exists db uid = true) :
    (create_user db uid none now).users = db.users ++ [(uid, newUser uid none now)] := by
  unfold create_user
  rw [if_neg hex]
  rfl

theorem alookup_create_user_plain (db : DB) (uid now : Nat)
    (hex : ¬ user_exists db uid = true) :
    alookup uid (create_user db uid none now).users = some (newUser uid none now) := by
  rw [create_user_users_plain db uid now hex,
    alookup_append_none uid _ _ (alookup_none_of_not_exists db uid hex)]
  simp [alookup]

/-- When the stored row is not an expired premium, get_user_limits performs
no state change. -/
theorem get_user_limits_no_reset (db : DB) (uid now : Nat)
    (h : expiredPremium db uid now = false) :
    (get_user_limits db uid now).2 = db := by
  unfold get_user_limits
  cases hu : alookup uid db.users with
  | none => rfl
  | some u =>
    by_cases hp : u.subscription_type = "premium"
    · cases he : u.subscription_expires with
      | none => simp [hp, he]
      | some e =>
        by_cases hgt : e > now
        · simp [hp, he, hgt]
        · exfalso
          unfold expiredPremium at h
          rw [hu] at h
          simp [hp, he, hgt] at h
    · simp [hp]

theorem storedPremium_ensure (db : DB) (uid now : Nat) :
    storedPremium (ensureUser db uid now) uid = storedPremium db uid := by
  unfold ensureUser
  by_cases hex : user_exists db uid = true
  · rw [if_pos hex]
  · rw [if_neg hex]
    unfold storedPremium
    rw [alookup_create_user_plain db uid now hex, alookup_none_of_not_exists db uid hex]
    simp [newUser]

theorem expiredPremium_ensure (db : DB) (uid now : Nat) :
    expiredPremium (ensureUser db uid now) uid now = expiredPremium db uid now := by
  unfold ensureUser
  by_cases hex : user_exists db uid = true
  · rw [if_pos hex]
  · rw [if_neg hex]
    unfold expiredPremium
    rw [alookup_create_user_plain db uid now hex, alookup_none_of_not_exists db uid hex]
    simp [newUser]

/-- C8 counterexample: for the expired-premium user of expPremDB,
check_limit buckets midjourney_generation weekly (it re-reads the row after
the lazy reset) while get_user_status buckets it daily (it uses the row read
before the reset): the two disagree on the same state. -/
theorem bucketing_disagreement_expired_premium :
    (check_limit expPremDB 1 "midjourney_generation" 200).1.period_type = "weekly" ∧
    (match (get_user_status expPremDB 1 200).1 with
     | some st => (alookup "midjourney_generation" st.limits).map LimitStatus.period_type
     | none => none) = some "daily" ∧
    ("weekly" : String) ≠ "daily" :=
  ⟨by decide, by decide, by decide⟩

/-- C8 amended: flux_generation is always weekly, midjourney_generation is
daily exactly for a stored premium row and weekly otherwise, and every other
limit type is daily; check_limit and get_user_status agree on this for every
user whose stored row is not a premium with an already-passed expiry (on
such a row check_limit uses the post-reset free tier while get_user_status
uses the stale premium row, and the two disagree). -/
theorem period_bucketing_rule (db : DB) (uid : Nat) (lt : String) (now : Nat)
    (h : expiredPremium db uid now = false) :
    (check_limit db uid lt now).1.period_type = bucket_of lt (storedPremium db uid) ∧
    (∀ st : UserStatus, ∀ ls : LimitStatus,
      (get_user_status db uid now).1 = some st →
      alookup lt st.limits = some ls →
      ls.period_type = bucket_of lt (storedPremium db uid)) := by
  have hens : expiredPremium (ensureUser db uid now) uid now = false := by
    rw [expiredPremium_ensure]
    exact h
  have hnr : (get_user_limits (ensureUser db uid now) uid now).2 = ensureUser db uid now :=
    get_user_limits_no_reset _ _ _ hens
  have hsp : (match alookup uid (ensureUser db uid now).users with
      | some u => decide (u.subscription_type = "premium")
      | none => false) = storedPremium db uid := by
    have h1 : (match alookup uid (ensureUser db uid now).users with
        | some u => decide (u.subscription_type = "premium")
        | none => false) = storedPremium (ensureUser db uid now) uid := rfl
    rw [h1, storedPremium_ensure]
  constructor
  · rw [check_limit_period_def, hnr, hsp]
    unfold bucket_of
    rfl
  · intro st ls hst hls
    simp only [get_user_status] at hst
    cases hud : alookup uid (ensureUser db uid now).users with
    | none =>
      rw [hud] at hst
      exact absurd hst (by simp)
    | some user_data =>
      rw [hud] at hst
      simp only [] at hst
      have hst2 := Option.some.inj hst
      have hsp2 : storedPremium db uid = decide (user_data.subscription_type = "premium") := by
        have h1 : storedPremium (ensureUser db uid now) uid =
            decide (user_data.subscription_type = "premium") := by
          unfold storedPremium
          rw [hud]
        rw [← storedPremium_ensure db uid now, h1]
      rw [← hst2] at hls
      simp only [] at hls
      rw [alookup_map_pair] at hls
      cases hv : alookup lt (get_user_limits (ensureUser db uid now) uid now).1 with
      | none =>
        rw [hv] at hls
        exact absurd hls (by simp)
      | some cap =>
        rw [hv] at hls
        have hls2 := Option.some.inj hls
        rw [← hls2]
        show (if lt = "flux_generation" ∨ lt = "midjourney_generation" then
            if lt = "midjourney_generation" then
              if user_data.subscription_type = "premium" then "daily" else "weekly"
            else "weekly"
          else "daily") = bucket_of lt (storedPremium db uid)
        rw [hsp2]
        unfold bucket_of
        simp only [decide_eq_true_eq]

/-- Concrete witness for period_bucketing_rule: the free user of exDB75 is
not an expired premium, and both call sites bucket midjourney weekly. -/
theorem period_bucketing_rule_witness :
    expiredPremium exDB75 7 1000 = false ∧
    ((check_limit exDB75 7 "midjourney_generation" 1000).1.period_type =
      bucket_of "midjourney_generation" (storedPremium exDB75 7) ∧
     (∀ st : UserStatus, ∀ ls : LimitStatus,
       (get_user_status exDB75 7 1000).1 = some st →
       alookup "midjourney_generation" st.limits = some ls →
       ls.period_type = bucket_of "midjourney_generation" (storedPremium exDB75 7))) :=
  ⟨by decide, period_bucketing_rule exDB75 7 "midjourney_generation" 1000 (by decide)⟩

end TgBot

namespace TgBot

theorem confirmFirst_none (test : Payment → Bool) (now : Nat) (l : List Payment)
    (h : ∀ p ∈ l, test p = false) : confirmFirst test now l = (none, l) := by
  induction l with
  | nil => rfl
  | cons p rest ih =>
    unfold confirmFirst
    rw [if_neg (by rw [h p (List.mem_cons_self p rest)]; simp)]
    rw [ih (fun q hq => h q (List.mem_cons_of_mem p hq))]

theorem confirmFirst_mem (test : Payment → Bool) (now : Nat) (l : List Payment)
    (q : Payment) (hq : q ∈ (confirmFirst test now l).2) :
    q ∈ l ∨ ∃ p, p ∈ l ∧ test p = true ∧
      q = { p with status := "completed", completed_at := some now } := by
  induction l with
  | nil =>
    exact absurd hq (by simp [confirmFirst])
  | cons p rest ih =>
    unfold confirmFirst at hq
    by_cases ht : test p = true
    · rw [if_pos ht] at hq
      rcases List.mem_cons.mp hq with h1 | h1
      · exact Or.inr ⟨p, List.mem_cons_self p rest, ht, h1⟩
      · exact Or.inl (List.mem_cons_of_mem p h1)
    · rw [if_neg ht] at hq
      have hq2 : q ∈ p :: (confirmFirst test now rest).2 := hq
      rcases List.mem_cons.mp hq2 with h1 | h1
      · exact Or.inl (h1 ▸ List.mem_cons_self p rest)
      · rcases ih h1 with h2 | ⟨p2, hp2, ht2, hq3⟩
        · exact Or.inl (List.mem_cons_of_mem p h2)
        · exact Or.inr ⟨p2, List.mem_cons_of_mem p hp2, ht2, hq3⟩

theorem confirmTest_pending (pid cid : Option String) (p : Payment)
    (h : confirmTest pid cid p = true) : p.status = "pending" := by
  unfold confirmTest at h
  cases pid with
  | some s =>
    simp only [Bool.and_eq_true, decide_eq_true_eq] at h
    exact h.2
  | none =>
    cases cid with
    | some c =>
      simp only [Bool.and_eq_true, decide_eq_true_eq] at h
      exact h.2
    | none => exact absurd h (by simp)

theorem confirm_payment_payments (db2 : DB) (pid2 cid2 : Option String) (now2 : Nat) :
    (confirm_payment db2 pid2 cid2 now2).2.payments = db2.payments ∨
    (confirm_payment db2 pid2 cid2 now2).2.payments =
      (confirmFirst (confirmTest pid2 cid2) now2 db2.payments).2 := by
  cases hres : (confirmFirst (confirmTest pid2 cid2) now2 db2.payments).1 with
  | none =>
    left
    simp only [confirm_payment, hres]
  | some pay =>
    right
    simp only [confirm_payment, hres]
    rfl

/-- C5: confirming a payment whose rows for that payment_id are all already
completed is a no-op returning no match and leaving the whole database
unchanged; moreover any row confirm_payment ever rewrites was pending before
and is exactly its completed version afterwards. -/
theorem confirm_payment_idempotent (db : DB) (pid : String) (cid : Option String) (now : Nat)
    (h : ∀ r, r ∈ db.payments → r.payment_id = pid → r.status = "completed") :
    confirm_payment db (some pid) cid now = (none, db) ∧
    (∀ (db2 : DB) (pid2 cid2 : Option String) (now2 : Nat) (q : Payment),
      q ∈ (confirm_payment db2 pid2 cid2 now2).2.payments →
      q ∈ db2.payments ∨
      ∃ p, p ∈ db2.payments ∧ p.status = "pending" ∧
        q = { p with status := "completed", completed_at := some now2 }) := by
  constructor
  · have hne : ("completed" : String) ≠ "pending" := by decide
    have htest : ∀ p ∈ db.payments, confirmTest (some pid) cid p = false := by
      intro p hp
      unfold confirmTest
      by_cases hpi : p.payment_id = pid
      · simp [hpi, h p hp hpi, hne]
      · simp [hpi]
    simp only [confirm_payment]
    rw [confirmFirst_none _ now db.payments htest]
  · intro db2 pid2 cid2 now2 q hq
    rcases confirm_payment_payments db2 pid2 cid2 now2 with hpp | hpp
    · rw [hpp] at hq
      exact Or.inl hq
    · rw [hpp] at hq
      rcases confirmFirst_mem _ now2 db2.payments q hq with h1 | ⟨p, hp, ht, hq2⟩
      · exact Or.inl h1
      · exact Or.inr ⟨p, hp, confirmTest_pending pid2 cid2 p ht, hq2⟩

/-- Concrete witness for confirm_payment_idempotent: re-confirming the
already-completed payment "p1" of refundDB is a no-op. -/
theorem confirm_payment_idempotent_witness :
    (∀ r, r ∈ refundDB.payments → r.payment_id = "p1" → r.status = "completed") ∧
    (confirm_payment refundDB (some "p1") none 50 = (none, refundDB) ∧
     (∀ (db2 : DB) (pid2 cid2 : Option String) (now2 : Nat) (q : Payment),
       q ∈ (confirm_payment db2 pid2 cid2 now2).2.payments →
       q ∈ db2.payments ∨
       ∃ p, p ∈ db2.payments ∧ p.status = "pending" ∧
         q = { p with status := "completed", completed_at := some now2 })) :=
  ⟨by decide, confirm_payment_idempotent refundDB "p1" none 50 (by decide)⟩

end TgBot

namespace TgBot

/-- The sequential early returns of is_eligible_for_referral_bonus, flattened
under the shipped configuration flags (no multiple bonuses, no bonus for
active users). -/
theorem is_eligible_cases (db : DB) (uid now : Nat) :
    is_eligible_for_referral_bonus db uid now =
      (if (db.referrals.filter (fun r => decide (r.invited_id = uid))).length > 0 then
        ((false, "already_used") : Bool × String)
      else if check_user_activity_before_referral db uid now then (false, "too_active")
      else if tooOldUser db uid now then (false, "too_old")
      else (true, "eligible")) := by
  unfold is_eligible_for_referral_bonus tooOldUser
  by_cases hc : (db.referrals.filter (fun r => decide (r.invited_id = uid))).length > 0
  · simp [REFERRAL_SETTINGS, hc]
  · by_cases ha : check_user_activity_before_referral db uid now = true
    · simp [REFERRAL_SETTINGS, hc, ha]
    · cases hu2 : alookup uid db.users with
      | none => simp [REFERRAL_SETTINGS, hc, ha, hu2]
      | some u =>
        by_cases hol : now - u.created_at >
            REFERRAL_SETTINGS.max_registration_age_hours * secondsPerHour
        · simp [REFERRAL_SETTINGS, hc, ha, hu2, hol]
        · simp [REFERRAL_SETTINGS, hc, ha, hu2, hol]

/-- Two users and one already-granted referral: user 3 was invited by user 2. -/
def refUsedDB : DB :=
  { users := [(2, { referral_code := "REFX2", created_at := 0 }),
              (3, { referral_code := "REFX3", created_at := 0 })],
    usage := [],
    referrals := [{ inviter_id := 2, invited_id := 3, created_at := 0, bonus_given := true }],
    payments := [], stats := emptyStats }

/-- C6: with allow_multiple_referral_bonuses fixed to False, once any
referral row names a user as invited, the eligibility check answers
(false, "already_used") and the /start redemption flow leaves the database
unchanged — no second bonus is applied. -/
theorem referral_bonus_granted_once (db : DB) (uid inviter now : Nat) (code : String)
    (hrow : ∃ r, r ∈ db.referrals ∧ r.invited_id = uid)
    (hcode : get_user_by_referral_code db code = some inviter)
    (h0 : inviter ≠ 0) (hown : inviter ≠ uid) :
    is_eligible_for_referral_bonus db uid now = (false, "already_used") ∧
    start_cmd_referral db uid code now = ("already_used", db) := by
  have hcount : (db.referrals.filter (fun r => decide (r.invited_id = uid))).length > 0 := by
    obtain ⟨r, hr, hre⟩ := hrow
    have hmem : r ∈ db.referrals.filter (fun r => decide (r.invited_id = uid)) :=
      List.mem_filter.mpr ⟨hr, by simp [hre]⟩
    exact List.length_pos.mpr (List.ne_nil_of_mem hmem)
  have heli : is_eligible_for_referral_bonus db uid now = (false, "already_used") := by
    rw [is_eligible_cases, if_pos hcount]
  refine ⟨heli, ?_⟩
  simp [start_cmd_referral, hcode, h0, hown, heli]

/-- Concrete witness for referral_bonus_granted_once: user 3 of refUsedDB
re-redeems user 2's link. -/
theorem referral_bonus_granted_once_witness :
    (∃ r, r ∈ refUsedDB.referrals ∧ r.invited_id = 3) ∧
    (is_eligible_for_referral_bonus refUsedDB 3 500 = (false, "already_used") ∧
     start_cmd_referral refUsedDB 3 "REFX2" 500 = ("already_used", refUsedDB)) :=
  ⟨⟨{ inviter_id := 2, invited_id := 3, created_at := 0, bonus_given := true },
      by decide, rfl⟩,
   referral_bonus_granted_once refUsedDB 3 2 500 "REFX2"
     ⟨{ inviter_id := 2, invited_id := 3, created_at := 0, bonus_given := true },
       by decide, rfl⟩
     (by decide) (by decide) (by decide)⟩

/-- C7: a /start redemption resolves to exactly one of the six outcomes, in
the claimed order: unknown code to invalid_link, own code to own_link, then
prior bonus grant to already_used, then prior activity to too_active, then
registration age beyond the configured window to too_old, else eligible. -/
theorem referral_outcome_resolution (db : DB) (uid : Nat) (code : String) (now : Nat)
    (hpos : ∀ p, p ∈ db.users → p.1 ≠ 0) :
    (start_cmd_referral db uid code now).1 = specOutcome db uid code now ∧
    specOutcome db uid code now ∈
      (["eligible", "already_used", "too_active", "too_old", "own_link",
        "invalid_link"] : List String) := by
  constructor
  · cases hcode : get_user_by_referral_code db code with
    | none => simp [start_cmd_referral, specOutcome, hcode]
    | some inviter =>
      have hnz : inviter ≠ 0 := by
        unfold get_user_by_referral_code at hcode
        cases hf : db.users.find? (fun p => decide (p.2.referral_code = code)) with
        | none =>
          rw [hf] at hcode
          simp at hcode
        | some pr =>
          rw [hf] at hcode
          simp at hcode
          rw [← hcode]
          exact hpos pr (List.mem_of_find?_eq_some hf)
      by_cases hou : inviter = uid
      · subst hou
        simp [start_cmd_referral, specOutcome, hcode]
      · have hL : (start_cmd_referral db uid code now).1 =
            (if (is_eligible_for_referral_bonus db uid now).1 then "eligible"
             else (is_eligible_for_referral_bonus db uid now).2) := by
          simp only [start_cmd_referral, hcode]
          rw [if_pos (by simp [hnz, hou])]
          by_cases he : (is_eligible_for_referral_bonus db uid now).1 = true
          · rw [if_pos he, if_pos he]
          · rw [if_neg he, if_neg he]
        rw [hL]
        unfold specOutcome
        simp only [hcode]
        rw [if_neg hou]
        rw [is_eligible_cases]
        by_cases hc : (db.referrals.filter (fun r => decide (r.invited_id = uid))).length > 0
        · simp [hc]
        · by_cases ha : check_user_activity_before_referral db uid now = true
          · simp [hc, ha]
          · by_cases ho2 : tooOldUser db uid now = true
            · simp [hc, ha, ho2]
            · simp [hc, ha, ho2]
  · unfold specOutcome
    cases get_user_by_referral_code db code with
    | none => simp
    | some inviter =>
      by_cases hou : inviter = uid
      · simp [hou]
      · simp only [if_neg hou]
        split_ifs <;> simp

/-- Concrete witness for referral_outcome_resolution: a brand-new user 9
redeems user 2's link in refUsedDB. -/
theorem referral_outcome_resolution_witness :
    (∀ p, p ∈ refUsedDB.users → p.1 ≠ 0) ∧
    ((start_cmd_referral refUsedDB 9 "REFX2" 100).1 = specOutcome refUsedDB 9 "REFX2" 100 ∧
     specOutcome refUsedDB 9 "REFX2" 100 ∈
       (["eligible", "already_used", "too_active", "too_old", "own_link",
         "invalid_link"] : List String)) :=
  ⟨by decide, referral_outcome_resolution refUsedDB 9 "REFX2" 100 (by decide)⟩

end TgBot

namespace TgBot

/-- C9 counterexample: the admin refund path applied to the completed
payment of refundDB (from_db = true, provider refund successful) leaves the
payment with status "cancelled" — cancel_subscription is what runs — not
"refunded" as claimed. -/
theorem refund_marks_cancelled_not_refunded :
    ((process_refund refundDB "t1" RefundOutcome.success true).2.payments.map
      Payment.status) = ["cancelled"] ∧
    ("cancelled" : String) ≠ "refunded" :=
  ⟨by decide, by decide⟩

/-- C9 amended: an admin-triggered refund of a completed payment found in
the database transitions every payment row matching the transaction id to
status "cancelled" (not "refunded") and resets the payer's local
subscription to free with the expiry cleared, and it produces the same
database state whether the provider's refund call reports success or
failure. -/
theorem refund_resets_subscription (db : DB) (tid : String) (pay : Payment)
    (hfind : db.payments.find? (fun r =>
      decide (r.telegram_payment_charge_id = some tid) ||
      (decide (r.payment_id = tid) && decide (r.status = "completed"))) = some pay)
    (hst : pay.status = "completed") :
    ∀ oc : RefundOutcome, oc ≠ RefundOutcome.error →
      ((∀ r, r ∈ (process_refund db tid oc true).2.payments →
         (r.telegram_payment_charge_id = some tid ∨ r.payment_id = tid) →
         r.status = "cancelled") ∧
       (∀ u, alookup pay.user_id (process_refund db tid oc true).2.users = some u →
         u.subscription_type = "free" ∧ u.subscription_expires = none) ∧
       (process_refund db tid RefundOutcome.success true).2 =
         (process_refund db tid RefundOutcome.failure true).2) := by
  have hcs : ∃ db3, cancel_subscription db tid = some db3 ∧
      db3.payments = db.payments.map (fun r =>
        if r.telegram_payment_charge_id = some tid ∨ r.payment_id = tid then
          { r with status := "cancelled" } else r) ∧
      db3.users = aupdate pay.user_id
        (fun u => { u with subscription_type := "free", subscription_expires := none })
        db.users := by
    unfold cancel_subscription
    rw [hfind]
    exact ⟨_, rfl, rfl, rfl⟩
  obtain ⟨db3, hc1, hc2, hc3⟩ := hcs
  intro oc hoc
  have hdb : (process_refund db tid oc true).2 = db3 := by
    cases oc with
    | success => simp [process_refund, hc1]
    | failure => simp [process_refund, hc1]
    | error => exact absurd rfl hoc
  refine ⟨?_, ?_, ?_⟩
  · intro r hr hcond
    rw [hdb, hc2] at hr
    obtain ⟨s, hs, hrs⟩ := List.mem_map.mp hr
    by_cases hcnd : s.telegram_payment_charge_id = some tid ∨ s.payment_id = tid
    · rw [if_pos hcnd] at hrs
      rw [← hrs]
    · rw [if_neg hcnd] at hrs
      rw [← hrs] at hcond
      exact absurd hcond hcnd
  · intro u hu
    rw [hdb, hc3] at hu
    rw [alookup_aupdate, if_pos rfl] at hu
    cases hu0 : alookup pay.user_id db.users with
    | none =>
      rw [hu0] at hu
      simp at hu
    | some u0 =>
      rw [hu0] at hu
      simp at hu
      rw [← hu]
      exact ⟨rfl, rfl⟩
  · simp [process_refund, hc1]

/-- The completed payment row stored in refundDB. -/
def refundPay : Payment :=
  { user_id := 1, payment_id := "p1", amount := 555, status := "completed",
    subscription_type := "month", telegram_payment_charge_id := some "t1" }

/-- Concrete witness for refund_resets_subscription at refundDB. -/
theorem refund_resets_subscription_witness :
    refundPay.status = "completed" ∧
    ((∀ r, r ∈ (process_refund refundDB "t1" RefundOutcome.success true).2.payments →
        (r.telegram_payment_charge_id = some "t1" ∨ r.payment_id = "t1") →
        r.status = "cancelled") ∧
     (∀ u, alookup refundPay.user_id
        (process_refund refundDB "t1" RefundOutcome.success true).2.users = some u →
        u.subscription_type = "free" ∧ u.subscription_expires = none) ∧
     (process_refund refundDB "t1" RefundOutcome.success true).2 =
       (process_refund refundDB "t1" RefundOutcome.failure true).2) :=
  ⟨by decide,
   refund_resets_subscription refundDB "t1" refundPay (by decide) (by decide)
     RefundOutcome.success (by decide)⟩

end TgBot
